import Mathlib

/-!
Verification of the imgapi image-upload service.

The Python sources (`app/utils/validator.py`, `app/main.py`, `app/jobs.py`)
are shallowly embedded below: pure functions become Lean functions, the
SQLite tables become lists of row structures, the HTTP upload handler
becomes an explicit state-transition function, and the external
collaborators (PIL image decoding, the filesystem, the Redis queue, the
caption model, wall-clock time) become explicit parameters, since their
code is not part of this repository.  `hashlib.sha256` is embedded as a
full executable SHA-256 over byte lists, checked against the FIPS 180-4
test vectors.
-/

namespace ImgApi

/-! ## SHA-256 (embedding of `hashlib.sha256(...).hexdigest()`)

Bytes are naturals below 256; words are naturals below 2^32, with overflow
made explicit by reduction modulo 4294967296. -/

namespace Sha2

def mask32 : Nat := 4294967295

def rotr (n x : Nat) : Nat := ((x >>> n) ||| (x <<< (32 - n))) &&& mask32

def bigSigma0 (x : Nat) : Nat := (rotr 2 x) ^^^ (rotr 13 x) ^^^ (rotr 22 x)

def bigSigma1 (x : Nat) : Nat := (rotr 6 x) ^^^ (rotr 11 x) ^^^ (rotr 25 x)

def smallSigma0 (x : Nat) : Nat := (rotr 7 x) ^^^ (rotr 18 x) ^^^ (x >>> 3)

def smallSigma1 (x : Nat) : Nat := (rotr 17 x) ^^^ (rotr 19 x) ^^^ (x >>> 10)

def ch (x y z : Nat) : Nat := (x &&& y) ^^^ ((x ^^^ mask32) &&& z)

def maj (x y z : Nat) : Nat := (x &&& y) ^^^ (x &&& z) ^^^ (y &&& z)

/-- The 64 round constants of FIPS 180-4 §4.2.2, written in decimal. -/
def K : List Nat :=
  [1116352408, 1899447441, 3049323471, 3921009573, 961987163, 1508970993, 2453635748,
   2870763221, 3624381080, 310598401, 607225278, 1426881987, 1925078388, 2162078206,
   2614888103, 3248222580, 3835390401, 4022224774, 264347078, 604807628, 770255983,
   1249150122, 1555081692, 1996064986, 2554220882, 2821834349, 2952996808, 3210313671,
   3336571891, 3584528711, 113926993, 338241895, 666307205, 773529912, 1294757372,
   1396182291, 1695183700, 1986661051, 2177026350, 2456956037, 2730485921, 2820302411,
   3259730800, 3345764771, 3516065817, 3600352804, 4094571909, 275423344, 430227734,
   506948616, 659060556, 883997877, 958139571, 1322822218, 1537002063, 1747873779,
   1955562222, 2024104815, 2227730452, 2361852424, 2428436474, 2756734187, 3204031479,
   3329325298]

structure Hash where
  h0 : Nat
  h1 : Nat
  h2 : Nat
  h3 : Nat
  h4 : Nat
  h5 : Nat
  h6 : Nat
  h7 : Nat
deriving DecidableEq, Repr

/-- The initial hash values of FIPS 180-4 §5.3.3, written in decimal. -/
def initH : Hash :=
  ⟨1779033703, 3144134277, 1013904242, 2773480762, 1359893119, 2600822924, 528734635,
   1541459225⟩

def lenBytes (n : Nat) : List Nat :=
  [(n >>> 56) &&& 255, (n >>> 48) &&& 255, (n >>> 40) &&& 255, (n >>> 32) &&& 255,
   (n >>> 24) &&& 255, (n >>> 16) &&& 255, (n >>> 8) &&& 255, n &&& 255]

/-- Append the 0x80 marker, zero padding to 56 mod 64, and the 64-bit
big-endian bit length. -/
def padMessage (msg : List Nat) : List Nat :=
  msg ++ [128] ++ List.replicate ((119 - (msg.length % 64)) % 64) 0 ++ lenBytes (8 * msg.length)

/-- Big-endian 32-bit words from a byte list. -/
def toWords : List Nat → List Nat
  | a :: b :: c :: d :: rest => (((a * 256 + b) * 256 + c) * 256 + d) :: toWords rest
  | _ => []

def extendLoop : Nat → List Nat → List Nat
  | 0, ws => ws
  | fuel + 1, ws =>
      let n := ws.length
      let w := (smallSigma1 (ws.getD (n - 2) 0) + ws.getD (n - 7) 0 +
                smallSigma0 (ws.getD (n - 15) 0) + ws.getD (n - 16) 0) % 4294967296
      extendLoop fuel (ws ++ [w])

def schedule (block : List Nat) : List Nat := extendLoop 48 (toWords block)

def round (k w : Nat) (s : Hash) : Hash :=
  let t1 := (s.h7 + bigSigma1 s.h4 + ch s.h4 s.h5 s.h6 + k + w) % 4294967296
  let t2 := (bigSigma0 s.h0 + maj s.h0 s.h1 s.h2) % 4294967296
  ⟨(t1 + t2) % 4294967296, s.h0, s.h1, s.h2, (s.h3 + t1) % 4294967296, s.h4, s.h5, s.h6⟩

def compress (h : Hash) (block : List Nat) : Hash :=
  let s := (K.zip (schedule block)).foldl (fun s kw => round kw.1 kw.2 s) h
  ⟨(h.h0 + s.h0) % 4294967296, (h.h1 + s.h1) % 4294967296, (h.h2 + s.h2) % 4294967296,
   (h.h3 + s.h3) % 4294967296, (h.h4 + s.h4) % 4294967296, (h.h5 + s.h5) % 4294967296,
   (h.h6 + s.h6) % 4294967296, (h.h7 + s.h7) % 4294967296⟩

def chunksLoop : Nat → List Nat → Hash → Hash
  | 0, _, h => h
  | _, [], h => h
  | fuel + 1, msg, h => chunksLoop fuel (msg.drop 64) (compress h (msg.take 64))

def digest (msg : List Nat) : Hash :=
  chunksLoop (padMessage msg).length (padMessage msg) initH

def hexChar (n : Nat) : Char := if n < 10 then Char.ofNat (48 + n) else Char.ofNat (87 + n)

def wordHex (w : Nat) : List Char :=
  [hexChar ((w >>> 28) &&& 15), hexChar ((w >>> 24) &&& 15), hexChar ((w >>> 20) &&& 15),
   hexChar ((w >>> 16) &&& 15), hexChar ((w >>> 12) &&& 15), hexChar ((w >>> 8) &&& 15),
   hexChar ((w >>> 4) &&& 15), hexChar (w &&& 15)]

/-- The lowercase hex rendering of the SHA-256 digest of a byte list:
the embedding of `hashlib.sha256(data).hexdigest()`. -/
def hexdigest (msg : List Nat) : String :=
  String.mk (wordHex (digest msg).h0 ++ wordHex (digest msg).h1 ++ wordHex (digest msg).h2 ++
             wordHex (digest msg).h3 ++ wordHex (digest msg).h4 ++ wordHex (digest msg).h5 ++
             wordHex (digest msg).h6 ++ wordHex (digest msg).h7)

end Sha2

/-! ## Validator (embedding of `app/utils/validator.py`) -/

def ALLOWED_EXTENSIONS : List String := [".jpg", ".jpeg", ".png"]

def ALLOWED_MIME : List String := ["image/jpeg", "image/png"]

def SIGNATURES (mime : String) : List (List Nat) :=
  if mime = "image/jpeg" then [[0xFF, 0xD8, 0xFF]]
  else if mime = "image/png" then [[0x89, 0x50, 0x4E, 0x47, 0x0D, 0x0A, 0x1A, 0x0A]]
  else []

/-- Python `str.lower` on the ASCII range: lowercase each character. -/
def str_lower (s : String) : String := String.mk (s.toList.map Char.toLower)

/-- Index of the last dot in a character list, if any (Python `str.rfind`). -/
def lastDotIdx : List Char → Option Nat
  | [] => none
  | c :: rest =>
      match lastDotIdx rest with
      | some j => some (j + 1)
      | none => if c = '.' then some 0 else none

/-- The final component of the path, as `pathlib` sees it (trailing slashes
are dropped and the name runs from the last remaining slash). -/
def path_basename (p : String) : String :=
  let r := (p.toList.reverse).dropWhile (fun c => c = '/')
  String.mk ((r.takeWhile (fun c => c ≠ '/')).reverse)

/-- `pathlib.PurePath.suffix`: the extension of the final component; empty
when the name has no dot, starts with its only dot, or ends in the dot. -/
def path_suffix (filename : String) : String :=
  let name := path_basename filename
  match lastDotIdx name.toList with
  | none => ""
  | some i =>
      if 0 < i ∧ i < name.toList.length - 1 then String.mk (name.toList.drop i) else ""

/-- `get_ext` from validator.py: `Path(filename or "").suffix.lower()`. -/
def get_ext (filename : String) : String := str_lower (path_suffix filename)

/-- `match_signature` from validator.py. -/
def match_signature (mime : String) (data : List Nat) : Bool :=
  (SIGNATURES mime).any fun signature => signature.isPrefixOf data

/-- External collaborator: PIL.  `openImage` yields the header dimensions
and format when PIL can identify the image (`none` models
`UnidentifiedImageError`/`OSError` raised by `Image.open`); `verify` models
`img.verify()` succeeding on the full data. -/
structure PILDecoder where
  openImage : List Nat → Option (Nat × Nat × String)
  verify : List Nat → Bool

/-- The validator's failure taxonomy (spec §4.1); each constructor carries
what the code interpolates into the HTTPException detail. -/
inductive VError
  | BadExtension (extension : String)
  | BadMimeType (mime : String)
  | EmptyUpload
  | SignatureMismatch
  | CorruptImage
deriving DecidableEq, Repr

/-- The HTTPException detail string raised for each failure, verbatim from
validator.py. -/
def VError.detail : VError → String
  | .BadExtension extension => "Bad Extension " ++ (if extension = "" then "none" else extension)
  | .BadMimeType mime => "Bad MIME type: " ++ (if mime = "" then "(none)" else mime)
  | .EmptyUpload => "Empty upload"
  | .SignatureMismatch => "File bytes do not match image type"
  | .CorruptImage => "Invalid or corrupted image"

/-- `pil_validate` from validator.py: open the header; above the pixel
ceiling return the zero-dimension sentinel before any verification;
otherwise verify the image, a failure raising CorruptImage. -/
def pil_validate (pil : PILDecoder) (data : List Nat) (max_pixels : Nat) :
    Except VError (Nat × Nat × String) :=
  match pil.openImage data with
  | none => .error .CorruptImage
  | some (w, h, fmt) =>
      if w * h > max_pixels then .ok (0, 0, "")
      else if pil.verify data then .ok (w, h, str_lower fmt) else .error .CorruptImage

/-- The `UploadFile` fields `validate` reads. -/
structure UploadFileM where
  filename : Option String
  content_type : Option String
  data : List Nat

/-- `ValidatedUpload` from validator.py. -/
structure ValidatedUpload where
  ext : String
  mime : String
  bytes : List Nat
  sha256 : String
  width : Nat
  height : Nat
  format : String
deriving DecidableEq, Repr

/-- `validate` from validator.py, with PIL as an explicit collaborator. -/
def validate (pil : PILDecoder) (file : UploadFileM) : Except VError ValidatedUpload :=
  let extension := get_ext (file.filename.getD "")
  if extension ∉ ALLOWED_EXTENSIONS then .error (.BadExtension extension)
  else
    let mime := str_lower (file.content_type.getD "")
    if mime ∉ ALLOWED_MIME then .error (.BadMimeType mime)
    else
      let data := file.data
      if data = [] then .error .EmptyUpload
      else if ¬ match_signature mime data then .error .SignatureMismatch
      else
        match pil_validate pil data 50000000 with
        | .error e => .error e
        | .ok (w, h, fmt) => .ok ⟨extension, mime, data, Sha2.hexdigest data, w, h, fmt⟩

/-- A PIL collaborator that reports fixed header data and verifies
everything: the concrete instance used to exercise the model. -/
def pilFixed (w h : Nat) (fmt : String) : PILDecoder :=
  ⟨fun _ => some (w, h, fmt), fun _ => true⟩

/-- A minimal well-formed PNG payload stand-in: the PNG signature plus a
few bytes. -/
def pngBytes : List Nat := [0x89, 0x50, 0x4E, 0x47, 0x0D, 0x0A, 0x1A, 0x0A, 1, 2, 3]

/-- A minimal well-formed JPEG payload stand-in. -/
def jpegBytes : List Nat := [0xFF, 0xD8, 0xFF, 0xE0, 5, 6]

/-! ## Database model (embedding of the SQLite schema in `app/main.py`) -/

/-- A row of the `metadata` table (the ContentRecord, keyed by sha256). -/
structure MetaRow where
  sha256 : String
  width : Nat
  height : Nat
  format : String
  size_bytes : Nat
  first_upload : String
  exif_json : Option String
  caption : Option String
deriving DecidableEq, Repr

/-- A row of the `images` table (the UploadAttempt, keyed by image_id). -/
structure ImageRow where
  image_id : String
  original_name : String
  processed_at : String
  image_path : Option String
  metadata_sha256 : Option String
  error : Option String
deriving DecidableEq, Repr

/-- A row of the `stats` table (the ProcessingOutcome, keyed by image_id;
status is the raw integer column: 1 or 0). -/
structure StatRow where
  image_id : String
  start_time : String
  end_time : Option String
  status : Nat
deriving DecidableEq, Repr

/-- The three tables. -/
structure DB where
  metadata : List MetaRow
  images : List ImageRow
  stats : List StatRow
deriving DecidableEq, Repr

/-- A job placed on the `image-jobs` queue, with the arguments
`upload_img` enqueues it with. -/
inductive Job
  | thumbnail (sha256 : String) (image_path : String)
  | exif (sha256 : String) (image_path : String)
  | caption (sha256 : String) (image_path : String) (image_id : String)
deriving DecidableEq, Repr

/-! ## Upload handler (embedding of `upload_img` in `app/main.py`) -/

/-- The metadata block of a response item (the success-path dict). -/
structure ItemMeta where
  width : Nat
  height : Nat
  format : String
  size_bytes : Nat
  sha256 : String
  first_upload : String
deriving DecidableEq, Repr

/-- The JSON item `build_item` produces, restricted to the fields the
claims inspect; `metadata = none` models the empty dict, and the
thumbnails map is populated exactly when the status is "success". -/
structure Item where
  status : String
  image_id : String
  original_name : String
  processed_at : String
  metadata : Option ItemMeta
  hasThumbnails : Bool
  error : Option String
deriving DecidableEq, Repr

/-- `build_item` from main.py. -/
def build_item (status image_id original_name processed_at : String)
    (error : Option String) (metadata : Option ItemMeta) : Item :=
  ⟨status, image_id, original_name, processed_at, metadata, status == "success", error⟩

/-- Per-request environment: the external collaborators of `upload_img`.
`image_id` is the fresh `uuid4().hex`; `now` stands for both the request
timestamp and the database clock (the model does not distinguish them);
`storageOk` is whether `destination.write_bytes` succeeds; `enqueueFrom`
is `some k` when the Redis enqueue raises on the k-th `q.enqueue` call
(k = 0, 1 or 2) and `none` when all three succeed. -/
structure UploadEnv where
  pil : PILDecoder
  image_id : String
  now : String
  storageOk : Bool
  enqueueFrom : Option Nat

/-- The outcome of one `upload_img` call: a JSON response, or an
HTTPException escaping the handler (status code and detail). -/
inductive UploadResult
  | response (item : Item)
  | httpError (code : Nat) (detail : String)
deriving DecidableEq, Repr

/-- `upload_img` from main.py as a state transition on the database and
the job queue.  The `INSERT OR IGNORE INTO metadata` is the atomic
insert-if-absent: `wasNew` is `cur.rowcount != 0`, and the three jobs are
enqueued only under `wasNew` (best-effort: an enqueue exception is caught
and logged).  On a storage write failure the handler raises a 500 before
touching the database. -/
def upload_img (env : UploadEnv) (file : UploadFileM) (db : DB) (queue : List Job) :
    DB × List Job × UploadResult :=
  let original_name := file.filename.getD "upload"
  let ext := str_lower (path_suffix original_name)
  let image_id := env.image_id
  let destination := "media/originals/" ++ image_id ++ ext
  let processed_at := env.now
  match validate env.pil file with
  | .error e =>
      let err_msg := e.detail
      let db' := { db with
        images := db.images ++ [⟨image_id, original_name, env.now, none, none, some err_msg⟩],
        stats := db.stats ++ [⟨image_id, env.now, none, 0⟩] }
      (db', queue, .response (build_item "failed" image_id original_name processed_at (some err_msg) none))
  | .ok v =>
      if ¬ env.storageOk then
        (db, queue, .httpError 500 "Failed to save image")
      else
        let image_path := destination
        let size := v.bytes.length
        let wasNew := ! db.metadata.any (fun m => m.sha256 == v.sha256)
        let metadata' :=
          if wasNew then db.metadata ++ [⟨v.sha256, v.width, v.height, v.format, size, env.now, none, none⟩]
          else db.metadata
        let fullEnqueue := [Job.thumbnail v.sha256 image_path, Job.exif v.sha256 image_path,
                            Job.caption v.sha256 image_path image_id]
        let queue' :=
          if wasNew then
            match env.enqueueFrom with
            | none => queue ++ fullEnqueue
            | some k => queue ++ fullEnqueue.take k
          else queue
        let db' := { db with
          metadata := metadata',
          images := db.images ++ [⟨image_id, original_name, processed_at, some image_path, some v.sha256, none⟩],
          stats := db.stats ++ [⟨image_id, env.now, none, 1⟩] }
        (db', queue', .response (build_item "success" image_id original_name processed_at none
          (some ⟨v.width, v.height, v.format, size, v.sha256, processed_at⟩)))

/-! ## Worker jobs (embedding of `app/jobs.py`) -/

/-- `caption_job` from jobs.py: write the caption into the content record,
set the stats row of this upload to terminal success with an end time, and
refresh the images row's processed_at.  The caption text and the database
clock are parameters (the BLIP model and the wall clock are external). -/
def caption_job (captionText dbNow : String) (sha256 image_id : String) (db : DB) : DB :=
  { db with
    metadata := db.metadata.map fun m =>
      if m.sha256 = sha256 then { m with caption := some captionText } else m,
    stats := db.stats.map fun s =>
      if s.image_id = image_id then { s with status := 1, end_time := some dbNow } else s,
    images := db.images.map fun i =>
      if i.image_id = image_id then { i with processed_at := dbNow } else i }

/-- `exif_job` from jobs.py: write the EXIF JSON into the content record;
it touches neither the stats nor the images table. -/
def exif_job (exifJson : String) (sha256 : String) (db : DB) : DB :=
  { db with metadata := db.metadata.map fun m =>
      if m.sha256 = sha256 then { m with exif_json := some exifJson } else m }

/-! ## Stats endpoint (embedding of `get_stats` in `app/main.py`) -/

/-- Round num/den (den > 0) to the nearest integer, ties to even: Python
`int(round(...))` on an exact ratio. -/
def roundHalfEven (num den : Int) : Int :=
  let q := Int.fdiv num den
  let r := num - q * den
  if 2 * r < den then q
  else if den < 2 * r then q + 1
  else if q % 2 = 0 then q else q + 1

/-- `f"{(s / t) * 100:.2f}%"` on an exactly representable ratio: the
percentage with two decimal digits, ties rounded to even. -/
def pct2 (s t : Nat) : String :=
  let scaled := (roundHalfEven (10000 * s) t).toNat
  toString (scaled / 100) ++ "." ++ (if scaled % 100 < 10 then "0" else "") ++
    toString (scaled % 100) ++ "%"

/-- The body returned by `GET /api/stats`. -/
structure StatsOut where
  total : Nat
  failed : Nat
  success_rate : String
  average_processing_time_seconds : Int
deriving DecidableEq, Repr

/-- `get_stats` from main.py.  `parseT` models
`datetime.strptime(..., "%Y-%m-%d %H:%M:%S")` as seconds (SQLite stores
the timestamps in exactly that format); the float percentage formatting is
modelled on exact ratios.  The `completed` list is built from *all* rows,
unfiltered, exactly as in the source. -/
def get_stats (parseT : String → Int) (db : DB) : StatsOut :=
  let rows := db.stats
  let total := rows.length
  let failed := (rows.filter fun r => r.status == 0).length
  let durations := rows.filterMap fun r =>
    r.end_time.map fun e => parseT e - parseT r.start_time
  let avg_seconds := if durations.length = 0 then 0
    else roundHalfEven durations.sum durations.length
  let completed := rows
  let completed_total := completed.length
  let completed_success := (completed.filter fun r => r.status == 1).length
  let success_rate := if completed_total = 0 then "0.00%"
    else pct2 completed_success completed_total
  ⟨total, failed, success_rate, avg_seconds⟩

/-! ## Derived state and concrete fixtures -/

/-- The ProcessingOutcome state of spec §3/§4.5 read off a stats row.  The
schema has no separate pending code: an accepted upload's row is written
with the success code 1 and a NULL end time, and only the caption job
fills the end time — so `pending` is a status-1 row with no end time,
while a validation failure writes the terminal 0 immediately. -/
def outcomeState (s : StatRow) : String :=
  if s.status = 0 then "failed" else if s.end_time = none then "pending" else "success"

/-- A fresh database. -/
def dbEmpty : DB := ⟨[], [], []⟩

/-- An upload environment with working storage and queue. -/
def envOk (image_id : String) : UploadEnv :=
  ⟨pilFixed 10 10 "PNG", image_id, "2024-01-01 00:00:00", true, none⟩

/-- An environment whose storage write fails. -/
def envStorageFail : UploadEnv :=
  ⟨pilFixed 10 10 "PNG", "id1", "2024-01-01 00:00:00", false, none⟩

/-- An environment whose Redis enqueue raises on the first call. -/
def envEnqueueFail : UploadEnv :=
  ⟨pilFixed 10 10 "PNG", "id1", "2024-01-01 00:00:00", true, some 0⟩

/-- A well-formed PNG upload. -/
def fileOk : UploadFileM := ⟨some "a.png", some "image/png", pngBytes⟩

/-- What `validate` produces for `fileOk` under `pilFixed 10 10 "PNG"`. -/
def vOk : ValidatedUpload :=
  ⟨".png", "image/png", pngBytes, Sha2.hexdigest pngBytes, 10, 10, "png"⟩

/-- A PNG-named, PNG-typed upload whose bytes are the ASCII text
"notapng" (the repository test's spoofed payload). -/
def notAPng : List Nat := [110, 111, 116, 97, 112, 110, 103]

/-- A PIL collaborator reporting a 10000 x 10000 header whose `verify`
always fails — exercising that the bomb guard never consults it. -/
def pilBomb : PILDecoder := ⟨fun _ => some (10000, 10000, "PNG"), fun _ => false⟩

/-- The same PNG payload as `fileOk` uploaded under a .jpeg name. -/
def fileAlt : UploadFileM := ⟨some "c.jpeg", some "image/png", pngBytes⟩

/-- What `validate` produces for `fileAlt` under `pilFixed 10 10 "PNG"`. -/
def vAlt : ValidatedUpload :=
  ⟨".jpeg", "image/png", pngBytes, Sha2.hexdigest pngBytes, 10, 10, "png"⟩

/-- The stats table of the spec's stats-correctness scenario: two
caption-completed successes, one failed validation, one accepted upload
still pending. -/
def statsScenario : DB :=
  ⟨[], [],
   [⟨"a", "2024-01-01 00:00:00", some "2024-01-01 00:00:10", 1⟩,
    ⟨"b", "2024-01-01 00:00:00", some "2024-01-01 00:00:20", 1⟩,
    ⟨"c", "2024-01-01 00:00:00", none, 0⟩,
    ⟨"d", "2024-01-01 00:00:00", none, 1⟩]⟩

/-- A concrete strptime stand-in for the scenario's timestamps. -/
def parseW : String → Int := fun s =>
  if s = "2024-01-01 00:00:10" then 10 else if s = "2024-01-01 00:00:20" then 20 else 0

/-! ## Sanity checks of the embedding -/

/-- FIPS 180-4 test vector: SHA-256 of the empty message. -/
theorem hexdigest_nil :
    Sha2.hexdigest [] = "e3b0c44298fc1c149afbf4c8996fb92427ae41e4649b934ca495991b7852b855" := by
  decide

/-- FIPS 180-4 test vector: SHA-256 of "abc". -/
theorem hexdigest_abc :
    Sha2.hexdigest [97, 98, 99] =
      "ba7816bf8f01cfea414140de5dae2223b00361a396177a9cb410ff61f20015ad" := by
  decide

example : get_ext "photo.JPG" = ".jpg" := by decide

example : get_ext "x.png" = ".png" := by decide

example : get_ext "noext" = "" := by decide

example : get_ext "archive.tar.gz" = ".gz" := by decide

example : match_signature "image/png" pngBytes = true := by decide

example : match_signature "image/jpeg" pngBytes = false := by decide

example : validate (pilFixed 10 10 "PNG") fileOk = .ok vOk := by rfl

example :
    validate (pilFixed 10 10 "PNG") ⟨some "bad.txt", some "image/png", pngBytes⟩ =
      .error (.BadExtension ".txt") := by
  rfl

example : pct2 3 4 = "75.00%" := by decide

example : pct2 1 2 = "50.00%" := by decide

example : pct2 2 3 = "66.67%" := by decide

example : roundHalfEven 5 2 = 2 := by decide

example : roundHalfEven 7 2 = 4 := by decide

example : roundHalfEven (-3) 2 = -2 := by decide

/-! ## Helper lemmas about the validator -/

theorem validate_err_ext (pil : PILDecoder) (file : UploadFileM)
    (h : get_ext (file.filename.getD "") ∉ ALLOWED_EXTENSIONS) :
    validate pil file = .error (.BadExtension (get_ext (file.filename.getD ""))) := by
  simp only [validate]
  rw [if_pos h]

theorem validate_err_mime (pil : PILDecoder) (file : UploadFileM)
    (h1 : get_ext (file.filename.getD "") ∈ ALLOWED_EXTENSIONS)
    (h2 : str_lower (file.content_type.getD "") ∉ ALLOWED_MIME) :
    validate pil file = .error (.BadMimeType (str_lower (file.content_type.getD ""))) := by
  simp only [validate]
  rw [if_neg (not_not_intro h1), if_pos h2]

theorem validate_err_empty (pil : PILDecoder) (file : UploadFileM)
    (h1 : get_ext (file.filename.getD "") ∈ ALLOWED_EXTENSIONS)
    (h2 : str_lower (file.content_type.getD "") ∈ ALLOWED_MIME)
    (h3 : file.data = []) :
    validate pil file = .error .EmptyUpload := by
  simp only [validate]
  rw [if_neg (not_not_intro h1), if_neg (not_not_intro h2), if_pos h3]

theorem validate_err_sig (pil : PILDecoder) (file : UploadFileM)
    (h1 : get_ext (file.filename.getD "") ∈ ALLOWED_EXTENSIONS)
    (h2 : str_lower (file.content_type.getD "") ∈ ALLOWED_MIME)
    (h3 : file.data ≠ [])
    (h4 : match_signature (str_lower (file.content_type.getD "")) file.data = false) :
    validate pil file = .error .SignatureMismatch := by
  simp only [validate]
  rw [if_neg (not_not_intro h1), if_neg (not_not_intro h2), if_neg h3, if_pos (by simp [h4])]

theorem validate_err_pil (pil : PILDecoder) (file : UploadFileM) (e : VError)
    (h1 : get_ext (file.filename.getD "") ∈ ALLOWED_EXTENSIONS)
    (h2 : str_lower (file.content_type.getD "") ∈ ALLOWED_MIME)
    (h3 : file.data ≠ [])
    (h4 : match_signature (str_lower (file.content_type.getD "")) file.data = true)
    (h5 : pil_validate pil file.data 50000000 = .error e) :
    validate pil file = .error e := by
  simp only [validate]
  rw [if_neg (not_not_intro h1), if_neg (not_not_intro h2), if_neg h3,
    if_neg (by simp [h4]), h5]

theorem validate_ok_pil (pil : PILDecoder) (file : UploadFileM) (w hh : Nat) (fmt : String)
    (h1 : get_ext (file.filename.getD "") ∈ ALLOWED_EXTENSIONS)
    (h2 : str_lower (file.content_type.getD "") ∈ ALLOWED_MIME)
    (h3 : file.data ≠ [])
    (h4 : match_signature (str_lower (file.content_type.getD "")) file.data = true)
    (h5 : pil_validate pil file.data 50000000 = .ok (w, hh, fmt)) :
    validate pil file =
      .ok ⟨get_ext (file.filename.getD ""), str_lower (file.content_type.getD ""), file.data,
           Sha2.hexdigest file.data, w, hh, fmt⟩ := by
  simp only [validate]
  rw [if_neg (not_not_intro h1), if_neg (not_not_intro h2), if_neg h3,
    if_neg (by simp [h4]), h5]

theorem validate_ok_fields (pil : PILDecoder) (file : UploadFileM) (v : ValidatedUpload)
    (h : validate pil file = .ok v) :
    v.ext = get_ext (file.filename.getD "") ∧
    v.mime = str_lower (file.content_type.getD "") ∧
    v.bytes = file.data ∧
    v.sha256 = Sha2.hexdigest file.data := by
  simp only [validate] at h
  split at h
  · simp at h
  · split at h
    · simp at h
    · split at h
      · simp at h
      · split at h
        · simp at h
        · split at h
          · simp at h
          · simp only [Except.ok.injEq] at h
            subst h
            exact ⟨rfl, rfl, rfl, rfl⟩

theorem pil_validate_err (pil : PILDecoder) (data : List Nat) (mp : Nat) (e : VError)
    (h : pil_validate pil data mp = .error e) : e = .CorruptImage := by
  simp only [pil_validate] at h
  split at h
  · simp only [Except.error.injEq] at h
    exact h.symm
  · split at h
    · simp at h
    · split at h
      · simp at h
      · simp only [Except.error.injEq] at h
        exact h.symm

/-- The hex digest always has 64 characters. -/
theorem hexdigest_length (msg : List Nat) : (Sha2.hexdigest msg).length = 64 := by
  simp [Sha2.hexdigest, Sha2.wordHex, String.length]

theorem hexChar_mem (n : Nat) (h : n < 16) : Sha2.hexChar n ∈ "0123456789abcdef".toList := by
  interval_cases n <;> decide

theorem wordHex_mem (w : Nat) : ∀ c ∈ Sha2.wordHex w, c ∈ "0123456789abcdef".toList := by
  intro c hc
  have hlt : ∀ x : Nat, x &&& 15 < 16 := fun x =>
    Nat.lt_of_le_of_lt Nat.and_le_right (by norm_num)
  simp only [Sha2.wordHex, List.mem_cons, List.not_mem_nil, or_false] at hc
  rcases hc with h1 | h1 | h1 | h1 | h1 | h1 | h1 | h1 <;>
    (subst h1; exact hexChar_mem _ (hlt _))

theorem hexdigest_chars (msg : List Nat) :
    ∀ c ∈ (Sha2.hexdigest msg).toList, c ∈ "0123456789abcdef".toList := by
  intro c hc
  simp only [Sha2.hexdigest, String.toList, String.data, List.mem_append] at hc
  rcases hc with ((((((h1 | h1) | h1) | h1) | h1) | h1) | h1) | h1 <;>
    exact wordHex_mem _ _ h1

/-- Shape of a rejected `upload_img` call: the failure of `validate` is
caught, one images row and one stats row are inserted, and a failed item
is returned with the exception detail. -/
theorem upload_img_err (env : UploadEnv) (file : UploadFileM) (db : DB) (queue : List Job)
    (e : VError) (he : validate env.pil file = .error e) :
    upload_img env file db queue =
      ({ db with
          images := db.images ++
            [⟨env.image_id, file.filename.getD "upload", env.now, none, none, some e.detail⟩],
          stats := db.stats ++ [⟨env.image_id, env.now, none, 0⟩] },
        queue,
        .response (build_item "failed" env.image_id (file.filename.getD "upload") env.now
          (some e.detail) none)) := by
  simp [upload_img, he]

/-- Shape of an accepted `upload_img` call with a working storage write:
the metadata insert-if-absent, the conditional best-effort enqueue, and
the unconditional images and stats inserts. -/
theorem upload_img_ok (env : UploadEnv) (file : UploadFileM) (db : DB) (queue : List Job)
    (v : ValidatedUpload) (hok : validate env.pil file = .ok v) (hst : env.storageOk = true) :
    upload_img env file db queue =
      ({ db with
          metadata :=
            if ! db.metadata.any (fun m => m.sha256 == v.sha256) then
              db.metadata ++
                [⟨v.sha256, v.width, v.height, v.format, v.bytes.length, env.now, none, none⟩]
            else db.metadata,
          images := db.images ++ [⟨env.image_id, file.filename.getD "upload", env.now,
            some ("media/originals/" ++ env.image_id ++
              str_lower (path_suffix (file.filename.getD "upload"))),
            some v.sha256, none⟩],
          stats := db.stats ++ [⟨env.image_id, env.now, none, 1⟩] },
        (if ! db.metadata.any (fun m => m.sha256 == v.sha256) then
          match env.enqueueFrom with
          | none => queue ++
              [Job.thumbnail v.sha256 ("media/originals/" ++ env.image_id ++
                 str_lower (path_suffix (file.filename.getD "upload"))),
               Job.exif v.sha256 ("media/originals/" ++ env.image_id ++
                 str_lower (path_suffix (file.filename.getD "upload"))),
               Job.caption v.sha256 ("media/originals/" ++ env.image_id ++
                 str_lower (path_suffix (file.filename.getD "upload"))) env.image_id]
          | some k => queue ++
              ([Job.thumbnail v.sha256 ("media/originals/" ++ env.image_id ++
                  str_lower (path_suffix (file.filename.getD "upload"))),
                Job.exif v.sha256 ("media/originals/" ++ env.image_id ++
                  str_lower (path_suffix (file.filename.getD "upload"))),
                Job.caption v.sha256 ("media/originals/" ++ env.image_id ++
                  str_lower (path_suffix (file.filename.getD "upload"))) env.image_id].take k)
         else queue),
        .response (build_item "success" env.image_id (file.filename.getD "upload") env.now none
          (some ⟨v.width, v.height, v.format, v.bytes.length, v.sha256, env.now⟩))) := by
  simp [upload_img, hok, hst]

/-! ## Claim theorems -/

/-- C4: for every input (bytes, filename, declared content-type) the
validator performs its checks in the fixed order — extension in the
allowed set, declared MIME in the allowed set, non-empty payload,
magic-byte signature, decoder-level validation — short-circuiting on the
first failure with, respectively, BadExtension, BadMimeType, EmptyUpload,
SignatureMismatch and CorruptImage (the last clause shows every failure
is exactly one of those five), and when every check passes it returns the
ValidatedUpload carrying extension, MIME type, the raw bytes, the content
hash, width, height and format.  The embedding is a pure function of the
upload and the PIL collaborator, so validation has no side effects. -/
theorem validate_contract (pil : PILDecoder) (file : UploadFileM) :
    (get_ext (file.filename.getD "") ∉ ALLOWED_EXTENSIONS →
        validate pil file = .error (.BadExtension (get_ext (file.filename.getD "")))) ∧
    (get_ext (file.filename.getD "") ∈ ALLOWED_EXTENSIONS →
      str_lower (file.content_type.getD "") ∉ ALLOWED_MIME →
        validate pil file = .error (.BadMimeType (str_lower (file.content_type.getD "")))) ∧
    (get_ext (file.filename.getD "") ∈ ALLOWED_EXTENSIONS →
      str_lower (file.content_type.getD "") ∈ ALLOWED_MIME → file.data = [] →
        validate pil file = .error .EmptyUpload) ∧
    (get_ext (file.filename.getD "") ∈ ALLOWED_EXTENSIONS →
      str_lower (file.content_type.getD "") ∈ ALLOWED_MIME → file.data ≠ [] →
      match_signature (str_lower (file.content_type.getD "")) file.data = false →
        validate pil file = .error .SignatureMismatch) ∧
    (get_ext (file.filename.getD "") ∈ ALLOWED_EXTENSIONS →
      str_lower (file.content_type.getD "") ∈ ALLOWED_MIME → file.data ≠ [] →
      match_signature (str_lower (file.content_type.getD "")) file.data = true →
        (∀ e, pil_validate pil file.data 50000000 = .error e →
            validate pil file = .error .CorruptImage) ∧
        (∀ w hh fmt, pil_validate pil file.data 50000000 = .ok (w, hh, fmt) →
            validate pil file =
              .ok ⟨get_ext (file.filename.getD ""), str_lower (file.content_type.getD ""),
                   file.data, Sha2.hexdigest file.data, w, hh, fmt⟩)) ∧
    (∀ e, validate pil file = .error e →
        e = .BadExtension (get_ext (file.filename.getD "")) ∨
        e = .BadMimeType (str_lower (file.content_type.getD "")) ∨
        e = .EmptyUpload ∨ e = .SignatureMismatch ∨ e = .CorruptImage) := by
  refine ⟨validate_err_ext pil file,
    validate_err_mime pil file,
    validate_err_empty pil file,
    validate_err_sig pil file,
    fun h1 h2 h3 h4 => ⟨fun e he => ?_, fun w hh fmt h5 => validate_ok_pil pil file w hh fmt h1 h2 h3 h4 h5⟩,
    fun e he => ?_⟩
  · have hc := pil_validate_err pil file.data 50000000 e he
    subst hc
    exact validate_err_pil pil file _ h1 h2 h3 h4 he
  · simp only [validate] at he
    split at he
    · simp only [Except.error.injEq] at he
      exact Or.inl he.symm
    · split at he
      · simp only [Except.error.injEq] at he
        exact Or.inr (Or.inl he.symm)
      · split at he
        · simp only [Except.error.injEq] at he
          exact Or.inr (Or.inr (Or.inl he.symm))
        · split at he
          · simp only [Except.error.injEq] at he
            exact Or.inr (Or.inr (Or.inr (Or.inl he.symm)))
          · split at he
            · next e1 heq =>
              simp only [Except.error.injEq] at he
              exact Or.inr (Or.inr (Or.inr (Or.inr
                (he ▸ pil_validate_err pil file.data 50000000 e1 heq))))
            · simp at he

/-- Witness for C4: the full pipeline succeeds on a concrete well-formed
PNG upload, through the decoder-success clause of the contract. -/
theorem validate_contract_witness :
    validate (pilFixed 10 10 "PNG") fileOk = .ok vOk :=
  ((validate_contract (pilFixed 10 10 "PNG") fileOk).2.2.2.2.1 (by decide) (by decide)
    (by decide) (by decide)).2 10 10 "png" (by rfl)

/-- C5: a non-empty payload whose leading bytes do not match the declared
content-type's magic signature is rejected with SignatureMismatch even
when the extension and declared MIME are both allowed; the last two
clauses pin the signatures the code checks — `FF D8 FF` for image/jpeg
and the 8-byte PNG signature for image/png — as prefix tests on the
payload. -/
theorem signature_mismatch_rejected (pil : PILDecoder) (file : UploadFileM) :
    (get_ext (file.filename.getD "") ∈ ALLOWED_EXTENSIONS →
      str_lower (file.content_type.getD "") ∈ ALLOWED_MIME →
      file.data ≠ [] →
      match_signature (str_lower (file.content_type.getD "")) file.data = false →
        validate pil file = .error .SignatureMismatch) ∧
    (∀ data : List Nat, match_signature "image/png" data =
        [0x89, 0x50, 0x4E, 0x47, 0x0D, 0x0A, 0x1A, 0x0A].isPrefixOf data) ∧
    (∀ data : List Nat, match_signature "image/jpeg" data =
        [0xFF, 0xD8, 0xFF].isPrefixOf data) := by
  refine ⟨validate_err_sig pil file, fun data => ?_, fun data => ?_⟩
  · simp [match_signature, SIGNATURES]
  · simp [match_signature, SIGNATURES]

/-- Witness for C5: the text "notapng" renamed to x.png and declared
image/png is rejected with SignatureMismatch. -/
theorem signature_mismatch_rejected_witness :
    validate (pilFixed 10 10 "PNG") ⟨some "x.png", some "image/png", notAPng⟩ =
      .error .SignatureMismatch :=
  (signature_mismatch_rejected (pilFixed 10 10 "PNG")
    ⟨some "x.png", some "image/png", notAPng⟩).1 (by decide) (by decide) (by decide) (by decide)

/-- C6: decoder-level validation with the decompression-bomb guard.  When
the header dimensions multiply beyond the 50,000,000-pixel ceiling the
result is the zero-dimension sentinel `(0, 0, "")`, for *every* behaviour
of the `verify` collaborator — so the pixel data is never verified or
fully decoded; at or below the ceiling the image is verified, a verify
failure or an unidentifiable image yielding CorruptImage. -/
theorem decompression_bomb_guard (pil : PILDecoder) (data : List Nat) :
    (∀ w hh fmt, pil.openImage data = some (w, hh, fmt) → 50000000 < w * hh →
        pil_validate pil data 50000000 = .ok (0, 0, "")) ∧
    (∀ w hh fmt, pil.openImage data = some (w, hh, fmt) → w * hh ≤ 50000000 →
        pil.verify data = true → pil_validate pil data 50000000 = .ok (w, hh, str_lower fmt)) ∧
    (∀ w hh fmt, pil.openImage data = some (w, hh, fmt) → w * hh ≤ 50000000 →
        pil.verify data = false → pil_validate pil data 50000000 = .error .CorruptImage) ∧
    (pil.openImage data = none → pil_validate pil data 50000000 = .error .CorruptImage) := by
  refine ⟨fun w hh fmt hopen hbig => ?_, fun w hh fmt hopen hsmall hver => ?_,
    fun w hh fmt hopen hsmall hver => ?_, fun hopen => ?_⟩
  · simp [pil_validate, hopen, hbig]
  · simp [pil_validate, hopen, Nat.not_lt.mpr hsmall, hver]
  · simp [pil_validate, hopen, Nat.not_lt.mpr hsmall, hver]
  · simp [pil_validate, hopen]

/-- Witness for C6: a 10000 x 10000 header (above the ceiling) under a
decoder whose `verify` always fails still yields the sentinel. -/
theorem decompression_bomb_guard_witness :
    pil_validate pilBomb pngBytes 50000000 = .ok (0, 0, "") :=
  (decompression_bomb_guard pilBomb pngBytes).1 10000 10000 "PNG" (by rfl) (by decide)

/-- C7: every payload that passes validation carries as `sha256` exactly
the SHA-256 hex digest of the raw uploaded bytes — a 64-character string
over the hex alphabet — and validating byte-identical payloads yields the
identical hash whatever the filenames, declared content-types or decoder
behaviours were. -/
theorem content_hash_deterministic (pil pil2 : PILDecoder) (file file2 : UploadFileM)
    (v v2 : ValidatedUpload)
    (h : validate pil file = .ok v) (h2 : validate pil2 file2 = .ok v2)
    (hdata : file.data = file2.data) :
    v.sha256 = Sha2.hexdigest file.data ∧
    v.sha256.length = 64 ∧
    (∀ c ∈ v.sha256.toList, c ∈ "0123456789abcdef".toList) ∧
    v2.sha256 = v.sha256 := by
  have hv := (validate_ok_fields pil file v h).2.2.2
  have hv2 := (validate_ok_fields pil2 file2 v2 h2).2.2.2
  refine ⟨hv, ?_, ?_, ?_⟩
  · rw [hv]; exact hexdigest_length file.data
  · rw [hv]; exact hexdigest_chars file.data
  · rw [hv, hv2, hdata]

/-- Witness for C7: the same PNG bytes uploaded as a.png and as c.jpeg
hash identically, to a 64-character hex digest. -/
theorem content_hash_deterministic_witness :
    vOk.sha256 = Sha2.hexdigest pngBytes ∧
    vOk.sha256.length = 64 ∧
    (∀ c ∈ vOk.sha256.toList, c ∈ "0123456789abcdef".toList) ∧
    vAlt.sha256 = vOk.sha256 :=
  content_hash_deterministic (pilFixed 10 10 "PNG") (pilFixed 10 10 "PNG") fileOk fileAlt
    vOk vAlt (by rfl) (by rfl) (by rfl)

/-- C10: the validator checks the extension and the declared MIME type
independently and never for mutual consistency: a payload with PNG magic
bytes and declared content-type image/png passes in full under a .jpg
filename, and JPEG magic bytes with image/jpeg pass under a .png
filename. -/
theorem ext_mime_not_cross_checked (pil : PILDecoder) :
    (∀ fname data w hh fmt, get_ext fname = ".jpg" →
        match_signature "image/png" data = true →
        pil_validate pil data 50000000 = .ok (w, hh, fmt) →
        validate pil ⟨some fname, some "image/png", data⟩ =
          .ok ⟨".jpg", "image/png", data, Sha2.hexdigest data, w, hh, fmt⟩) ∧
    (∀ fname data w hh fmt, get_ext fname = ".png" →
        match_signature "image/jpeg" data = true →
        pil_validate pil data 50000000 = .ok (w, hh, fmt) →
        validate pil ⟨some fname, some "image/jpeg", data⟩ =
          .ok ⟨".png", "image/jpeg", data, Sha2.hexdigest data, w, hh, fmt⟩) := by
  constructor
  · intro fname data w hh fmt hext hsig hpil
    have hne : data ≠ [] := by
      rintro rfl
      exact absurd hsig (by decide)
    have hmono : str_lower "image/png" = "image/png" := by decide
    have := validate_ok_pil pil ⟨some fname, some "image/png", data⟩ w hh fmt
      (by simpa [hext] using (by decide : (".jpg" : String) ∈ ALLOWED_EXTENSIONS))
      (by rw [show (⟨some fname, some "image/png", data⟩ : UploadFileM).content_type.getD "" =
          "image/png" from rfl, hmono]; decide)
      hne
      (by rw [show (⟨some fname, some "image/png", data⟩ : UploadFileM).content_type.getD "" =
          "image/png" from rfl, hmono]; exact hsig)
      hpil
    simpa [hext, hmono] using this
  · intro fname data w hh fmt hext hsig hpil
    have hne : data ≠ [] := by
      rintro rfl
      exact absurd hsig (by decide)
    have hmono : str_lower "image/jpeg" = "image/jpeg" := by decide
    have := validate_ok_pil pil ⟨some fname, some "image/jpeg", data⟩ w hh fmt
      (by simpa [hext] using (by decide : (".png" : String) ∈ ALLOWED_EXTENSIONS))
      (by rw [show (⟨some fname, some "image/jpeg", data⟩ : UploadFileM).content_type.getD "" =
          "image/jpeg" from rfl, hmono]; decide)
      hne
      (by rw [show (⟨some fname, some "image/jpeg", data⟩ : UploadFileM).content_type.getD "" =
          "image/jpeg" from rfl, hmono]; exact hsig)
      hpil
    simpa [hext, hmono] using this

/-- C8 counterexample: an upload that passes validation but whose storage
write fails raises a 500 and records *no* UploadAttempt row at all — the
call fails yet `images` stays empty, refuting "every upload call produces
exactly one UploadAttempt record, whether the call succeeds or fails". -/
theorem upload_attempt_storage_failure_counterexample :
    (upload_img envStorageFail fileOk dbEmpty []).2.2 =
      .httpError 500 "Failed to save image" ∧
    (upload_img envStorageFail fileOk dbEmpty []).1.images = [] := by
  exact ⟨rfl, rfl⟩

/-- C8 (amended): every upload call that is not aborted by a storage
write failure records exactly one UploadAttempt: a validation failure
appends exactly one images row carrying the rejection detail string
verbatim, an accepted upload appends exactly one images row linked to the
content record; but when the storage write fails the handler re-raises a
500 with the database untouched, so that one path records no attempt. -/
theorem upload_attempt_always_recorded (env : UploadEnv) (file : UploadFileM) (db : DB)
    (queue : List Job) :
    (∀ e, validate env.pil file = .error e →
        (upload_img env file db queue).1.images = db.images ++
          [⟨env.image_id, file.filename.getD "upload", env.now, none, none, some e.detail⟩]) ∧
    (∀ v, validate env.pil file = .ok v → env.storageOk = true →
        (upload_img env file db queue).1.images = db.images ++
          [⟨env.image_id, file.filename.getD "upload", env.now,
            some ("media/originals/" ++ env.image_id ++
              str_lower (path_suffix (file.filename.getD "upload"))),
            some v.sha256, none⟩]) ∧
    (∀ v, validate env.pil file = .ok v → env.storageOk = false →
        (upload_img env file db queue).1 = db ∧
        (upload_img env file db queue).2.2 = .httpError 500 "Failed to save image") := by
  refine ⟨fun e he => ?_, fun v hok hst => ?_, fun v hok hst => ?_⟩
  · rw [upload_img_err env file db queue e he]
  · rw [upload_img_ok env file db queue v hok hst]
  · constructor <;> simp [upload_img, hok, hst]

/-- Witness for C8: a rejected spreadsheet and an accepted PNG each leave
exactly one images row, the rejection reason stored verbatim. -/
theorem upload_attempt_always_recorded_witness :
    (upload_img (envOk "id1") ⟨some "evil.xlsx", some "application/vnd.ms-excel", notAPng⟩
        dbEmpty []).1.images =
      [⟨"id1", "evil.xlsx", "2024-01-01 00:00:00", none, none,
        some "Bad Extension .xlsx"⟩] ∧
    (upload_img (envOk "id1") fileOk dbEmpty []).1.images =
      [⟨"id1", "a.png", "2024-01-01 00:00:00", some "media/originals/id1.png",
        some (Sha2.hexdigest pngBytes), none⟩] :=
  ⟨(upload_attempt_always_recorded (envOk "id1")
      ⟨some "evil.xlsx", some "application/vnd.ms-excel", notAPng⟩ dbEmpty []).1
      (.BadExtension ".xlsx") (by rfl),
   (upload_attempt_always_recorded (envOk "id1") fileOk dbEmpty []).2.1 vOk (by rfl) (by rfl)⟩

/-- C9: when validation and the storage write succeed but enqueuing the
processing jobs throws (at whichever of the three enqueue calls), the
failure is non-fatal: the ContentRecord for the hash is still committed,
the UploadAttempt and ProcessingOutcome rows are still inserted, and the
call still returns a success response instead of failing. -/
theorem enqueue_failure_nonfatal (env : UploadEnv) (file : UploadFileM) (db : DB)
    (queue : List Job) (v : ValidatedUpload) (k : Nat)
    (hok : validate env.pil file = .ok v) (hst : env.storageOk = true)
    (_henq : env.enqueueFrom = some k) :
    (∃ m ∈ (upload_img env file db queue).1.metadata, m.sha256 = v.sha256) ∧
    (∃ a, (upload_img env file db queue).1.images = db.images ++ [a] ∧
        a.metadata_sha256 = some v.sha256) ∧
    (∃ s, (upload_img env file db queue).1.stats = db.stats ++ [s] ∧
        s.image_id = env.image_id ∧ s.status = 1) ∧
    (∃ item, (upload_img env file db queue).2.2 = .response item ∧
        item.status = "success") := by
  rw [upload_img_ok env file db queue v hok hst]
  refine ⟨?_, ⟨_, rfl, rfl⟩, ⟨_, rfl, rfl, rfl⟩, ⟨_, rfl, rfl⟩⟩
  by_cases hany : (db.metadata.any fun m => m.sha256 == v.sha256) = true
  · obtain ⟨m, hm, hbeq⟩ := List.any_eq_true.mp hany
    exact ⟨m, by simp [hany, hm], by simpa using hbeq⟩
  · refine ⟨⟨v.sha256, v.width, v.height, v.format, v.bytes.length, env.now, none, none⟩,
      ?_, rfl⟩
    simp only [Bool.not_eq_true] at hany
    simp [hany]

/-- Witness for C9: with the enqueue raising on its first call, the
upload still commits all three rows and reports success. -/
theorem enqueue_failure_nonfatal_witness :
    (∃ m ∈ (upload_img envEnqueueFail fileOk dbEmpty []).1.metadata,
        m.sha256 = vOk.sha256) ∧
    (∃ a, (upload_img envEnqueueFail fileOk dbEmpty []).1.images = dbEmpty.images ++ [a] ∧
        a.metadata_sha256 = some vOk.sha256) ∧
    (∃ s, (upload_img envEnqueueFail fileOk dbEmpty []).1.stats = dbEmpty.stats ++ [s] ∧
        s.image_id = envEnqueueFail.image_id ∧ s.status = 1) ∧
    (∃ item, (upload_img envEnqueueFail fileOk dbEmpty []).2.2 = .response item ∧
        item.status = "success") :=
  enqueue_failure_nonfatal envEnqueueFail fileOk dbEmpty [] vOk 0 (by rfl) (by rfl) (by rfl)

/-- C1: two upload calls carrying byte-identical payloads that both pass
validation create exactly one ContentRecord keyed by the hash and enqueue
the three processing jobs (thumbnail, EXIF, caption) exactly once — on
the first call, whose insert-if-absent reports the row as new; the second
call adds no metadata row and no job — while each call still appends its
own distinct images row (UploadAttempt) and stats row
(ProcessingOutcome). -/
theorem upload_dedup (env1 env2 : UploadEnv) (file1 file2 : UploadFileM) (db : DB)
    (queue : List Job) (v1 v2 : ValidatedUpload)
    (h1 : validate env1.pil file1 = .ok v1) (h2 : validate env2.pil file2 = .ok v2)
    (hdata : file1.data = file2.data)
    (hst1 : env1.storageOk = true) (hst2 : env2.storageOk = true)
    (henq1 : env1.enqueueFrom = none)
    (hfresh : ∀ m ∈ db.metadata, m.sha256 ≠ v1.sha256)
    (hid : env1.image_id ≠ env2.image_id)
    (db1 : DB) (q1 : List Job) (r1 : UploadResult)
    (hr1 : upload_img env1 file1 db queue = (db1, q1, r1))
    (db2 : DB) (q2 : List Job) (r2 : UploadResult)
    (hr2 : upload_img env2 file2 db1 q1 = (db2, q2, r2)) :
    (db2.metadata.filter fun m => m.sha256 == v1.sha256).length = 1 ∧
    q1 = queue ++
      [Job.thumbnail v1.sha256 ("media/originals/" ++ env1.image_id ++
         str_lower (path_suffix (file1.filename.getD "upload"))),
       Job.exif v1.sha256 ("media/originals/" ++ env1.image_id ++
         str_lower (path_suffix (file1.filename.getD "upload"))),
       Job.caption v1.sha256 ("media/originals/" ++ env1.image_id ++
         str_lower (path_suffix (file1.filename.getD "upload"))) env1.image_id] ∧
    q2 = q1 ∧
    db2.metadata = db1.metadata ∧
    (∃ a1 a2, db2.images = db.images ++ [a1, a2] ∧
        a1.image_id = env1.image_id ∧ a2.image_id = env2.image_id ∧
        a1.metadata_sha256 = some v1.sha256 ∧ a2.metadata_sha256 = some v1.sha256 ∧
        a1 ≠ a2) ∧
    db2.stats = db.stats ++
      [⟨env1.image_id, env1.now, none, 1⟩, ⟨env2.image_id, env2.now, none, 1⟩] := by
  have hsha1 := (validate_ok_fields _ _ _ h1).2.2.2
  have hsha2 := (validate_ok_fields _ _ _ h2).2.2.2
  have hsha : v2.sha256 = v1.sha256 := by rw [hsha2, hsha1, hdata]
  have hany1 : (db.metadata.any fun m => m.sha256 == v1.sha256) = false := by
    rw [List.any_eq_false]
    intro m hm
    simpa using hfresh m hm
  have hfil : db.metadata.filter (fun m => m.sha256 == v1.sha256) = [] := by
    rw [List.filter_eq_nil_iff]
    intro m hm
    simpa using hfresh m hm
  rw [upload_img_ok env1 file1 db queue v1 h1 hst1] at hr1
  simp only [hany1, henq1] at hr1
  simp only [Bool.not_false, if_true, Prod.mk.injEq] at hr1
  obtain ⟨hdb1, hq1, -⟩ := hr1
  subst hdb1
  subst hq1
  rw [upload_img_ok env2 file2 _ _ v2 h2 hst2] at hr2
  simp [List.any_append, hsha] at hr2
  obtain ⟨hdb2, hq2, -⟩ := hr2
  subst hdb2
  subst hq2
  refine ⟨?_, rfl, rfl, rfl, ?_, ?_⟩
  · simp [List.filter_append, hfil]
  · refine ⟨⟨env1.image_id, file1.filename.getD "upload", env1.now,
      some ("media/originals/" ++ env1.image_id ++
        str_lower (path_suffix (file1.filename.getD "upload"))), some v1.sha256, none⟩,
      ⟨env2.image_id, file2.filename.getD "upload", env2.now,
      some ("media/originals/" ++ env2.image_id ++
        str_lower (path_suffix (file2.filename.getD "upload"))), some v1.sha256, none⟩,
      ?_, rfl, rfl, rfl, rfl, fun hEq => hid (congrArg ImageRow.image_id hEq)⟩
    · simp
  · simp

set_option maxRecDepth 8000 in
/-- Witness for C1: the same PNG bytes uploaded twice (as a.png by id1,
then as c.jpeg by id2) leave one metadata row for the hash. -/
theorem upload_dedup_witness :
    ((upload_img (envOk "id2") fileAlt (upload_img (envOk "id1") fileOk dbEmpty []).1
        (upload_img (envOk "id1") fileOk dbEmpty []).2.1).1.metadata.filter
          fun m => m.sha256 == vOk.sha256).length = 1 ∧
    (upload_img (envOk "id2") fileAlt (upload_img (envOk "id1") fileOk dbEmpty []).1
        (upload_img (envOk "id1") fileOk dbEmpty []).2.1).2.1 =
      (upload_img (envOk "id1") fileOk dbEmpty []).2.1 := by
  have h := upload_dedup (envOk "id1") (envOk "id2") fileOk fileAlt dbEmpty [] vOk vAlt
    (by rfl) (by rfl) (by rfl) (by rfl) (by rfl) (by rfl)
    (fun m hm => absurd hm (List.not_mem_nil m)) (by decide)
    (upload_img (envOk "id1") fileOk dbEmpty []).1
    (upload_img (envOk "id1") fileOk dbEmpty []).2.1
    (upload_img (envOk "id1") fileOk dbEmpty []).2.2 rfl
    (upload_img (envOk "id2") fileAlt (upload_img (envOk "id1") fileOk dbEmpty []).1
      (upload_img (envOk "id1") fileOk dbEmpty []).2.1).1
    (upload_img (envOk "id2") fileAlt (upload_img (envOk "id1") fileOk dbEmpty []).1
      (upload_img (envOk "id1") fileOk dbEmpty []).2.1).2.1
    (upload_img (envOk "id2") fileAlt (upload_img (envOk "id1") fileOk dbEmpty []).1
      (upload_img (envOk "id1") fileOk dbEmpty []).2.1).2.2 rfl
  exact ⟨h.1, h.2.2.1⟩

/-- C2 counterexample: in the spec's own stats scenario — rows a and b
caption-completed successes, c a failed validation, d accepted but still
pending — the endpoint returns success_rate "75.00%", not the claimed
"50.00%": the `completed` list in the source is built from all rows
unfiltered, and the pending row carries the pre-written status 1, so it
counts as a success. -/
theorem get_stats_success_rate_counterexample :
    (get_stats parseW statsScenario).total = 4 ∧
    (get_stats parseW statsScenario).failed = 1 ∧
    (get_stats parseW statsScenario).average_processing_time_seconds = 15 ∧
    (get_stats parseW statsScenario).success_rate = "75.00%" ∧
    (get_stats parseW statsScenario).success_rate ≠ "50.00%" :=
  ⟨rfl, rfl, rfl, rfl, by decide⟩

/-- C2 (amended): get_stats returns total = number of stats rows, failed
= number of rows with the failed status 0, a success rate formatted to
two decimals that is "0.00%" on an empty table and otherwise the share of
status-1 rows among ALL rows — not only those with a terminal outcome, so
a still-pending attempt (stored status 1) counts as a success and the
spec's 2-success/1-failed/1-pending scenario yields "75.00%" — and an
average computed only over rows with a non-null end time, so appending
still-pending rows never changes it. -/
theorem get_stats_spec (parseT : String → Int) (db : DB) :
    (get_stats parseT db).total = db.stats.length ∧
    (get_stats parseT db).failed = (db.stats.filter fun r => r.status == 0).length ∧
    (db.stats = [] → (get_stats parseT db).success_rate = "0.00%") ∧
    (db.stats ≠ [] → (get_stats parseT db).success_rate =
        pct2 (db.stats.filter fun r => r.status == 1).length db.stats.length) ∧
    (∀ pending : List StatRow, (∀ s ∈ pending, s.end_time = none) →
        (get_stats parseT ⟨db.metadata, db.images,
            db.stats ++ pending⟩).average_processing_time_seconds =
          (get_stats parseT db).average_processing_time_seconds) := by
  refine ⟨rfl, rfl, fun h => ?_, fun h => ?_, fun pending hpend => ?_⟩
  · simp [get_stats, h]
  · simp only [get_stats]
    rw [if_neg (by simpa using h)]
  · have hnil : (pending.filterMap fun r =>
        r.end_time.map fun e => parseT e - parseT r.start_time) = [] := by
      rw [List.filterMap_eq_nil_iff]
      intro s hs
      simp [hpend s hs]
    simp [get_stats, List.filterMap_append, hnil]

/-- Witness for C2: the amended success-rate convention and the
pending-rows-do-not-skew-the-average clause, at the concrete scenario. -/
theorem get_stats_spec_witness :
    (get_stats parseW statsScenario).success_rate = pct2 3 4 ∧
    (get_stats parseW ⟨statsScenario.metadata, statsScenario.images,
        statsScenario.stats ++
          [⟨"e", "2024-01-01 00:00:00", none, 1⟩]⟩).average_processing_time_seconds =
      (get_stats parseW statsScenario).average_processing_time_seconds :=
  ⟨(get_stats_spec parseW statsScenario).2.2.2.1 (by decide),
   (get_stats_spec parseW statsScenario).2.2.2.2
     [⟨"e", "2024-01-01 00:00:00", none, 1⟩] (by decide)⟩

/-- C3: lifecycle of the ProcessingOutcome.  An accepted upload appends
its stats row in the same atomic transition as its images row, with no
end time — the pending state (the schema encodes pending as the
pre-written status 1 with a NULL end time); a validation failure writes
the terminal failed status upfront; the caption job is what sets the end
time and moves the row to terminal success, while the EXIF job never
touches stats; and every row reads as one of pending, success, failed. -/
theorem processing_outcome_lifecycle :
    (∀ (env : UploadEnv) (file : UploadFileM) (db : DB) (queue : List Job)
        (v : ValidatedUpload), validate env.pil file = .ok v → env.storageOk = true →
        (upload_img env file db queue).1.stats =
          db.stats ++ [⟨env.image_id, env.now, none, 1⟩] ∧
        outcomeState ⟨env.image_id, env.now, none, 1⟩ = "pending" ∧
        ∃ a, (upload_img env file db queue).1.images = db.images ++ [a] ∧
          a.image_id = env.image_id) ∧
    (∀ (env : UploadEnv) (file : UploadFileM) (db : DB) (queue : List Job) (e : VError),
        validate env.pil file = .error e →
        (upload_img env file db queue).1.stats =
          db.stats ++ [⟨env.image_id, env.now, none, 0⟩] ∧
        outcomeState ⟨env.image_id, env.now, none, 0⟩ = "failed" ∧
        ∃ a, (upload_img env file db queue).1.images = db.images ++ [a] ∧
          a.image_id = env.image_id) ∧
    (∀ (cap dbNow sha imgId : String) (db : DB),
        (caption_job cap dbNow sha imgId db).stats = db.stats.map (fun s =>
          if s.image_id = imgId then { s with status := 1, end_time := some dbNow } else s) ∧
        (∀ s : StatRow, s.image_id = imgId →
          outcomeState { s with status := 1, end_time := some dbNow } = "success")) ∧
    (∀ (exifJson sha : String) (db : DB), (exif_job exifJson sha db).stats = db.stats) ∧
    (∀ s : StatRow, outcomeState s = "pending" ∨ outcomeState s = "success" ∨
        outcomeState s = "failed") := by
  refine ⟨fun env file db queue v hok hst => ?_, fun env file db queue e he => ?_,
    fun cap dbNow sha imgId db => ⟨rfl, fun s _ => by simp [outcomeState]⟩,
    fun exifJson sha db => rfl, fun s => ?_⟩
  · rw [upload_img_ok env file db queue v hok hst]
    exact ⟨rfl, by simp [outcomeState], _, rfl, rfl⟩
  · rw [upload_img_err env file db queue e he]
    exact ⟨rfl, by simp [outcomeState], _, rfl, rfl⟩
  · simp only [outcomeState]
    split
    · exact Or.inr (Or.inr rfl)
    · split
      · exact Or.inl rfl
      · exact Or.inr (Or.inl rfl)

/-- Witness for C3: a concrete accepted upload sits pending with no end
time; running the caption job on it stamps the end time and flips it to
terminal success. -/
theorem processing_outcome_lifecycle_witness :
    (upload_img (envOk "id1") fileOk dbEmpty []).1.stats =
      [⟨"id1", "2024-01-01 00:00:00", none, 1⟩] ∧
    outcomeState ⟨"id1", "2024-01-01 00:00:00", none, 1⟩ = "pending" ∧
    (caption_job "a cat" "2024-01-01 00:00:05" vOk.sha256 "id1"
        (upload_img (envOk "id1") fileOk dbEmpty []).1).stats =
      [⟨"id1", "2024-01-01 00:00:00", some "2024-01-01 00:00:05", 1⟩] ∧
    outcomeState ⟨"id1", "2024-01-01 00:00:00", some "2024-01-01 00:00:05", 1⟩ =
      "success" := by
  have h := processing_outcome_lifecycle
  have h1 := h.1 (envOk "id1") fileOk dbEmpty [] vOk (by rfl) (by rfl)
  refine ⟨h1.1, h1.2.1, ?_,
    (h.2.2.1 "a cat" "2024-01-01 00:00:05" vOk.sha256 "id1" dbEmpty).2
      ⟨"id1", "2024-01-01 00:00:00", none, 1⟩ rfl⟩
  rw [(h.2.2.1 "a cat" "2024-01-01 00:00:05" vOk.sha256 "id1"
      (upload_img (envOk "id1") fileOk dbEmpty []).1).1, h1.1]
  rfl

/-- Witness for C10: PNG bytes as photo.jpg with image/png, and JPEG
bytes as shot.png with image/jpeg, both validate successfully. -/
theorem ext_mime_not_cross_checked_witness :
    validate (pilFixed 10 10 "PNG") ⟨some "photo.jpg", some "image/png", pngBytes⟩ =
      .ok ⟨".jpg", "image/png", pngBytes, Sha2.hexdigest pngBytes, 10, 10, "png"⟩ ∧
    validate (pilFixed 10 10 "PNG") ⟨some "shot.png", some "image/jpeg", jpegBytes⟩ =
      .ok ⟨".png", "image/jpeg", jpegBytes, Sha2.hexdigest jpegBytes, 10, 10, "png"⟩ :=
  ⟨(ext_mime_not_cross_checked (pilFixed 10 10 "PNG")).1 "photo.jpg" pngBytes 10 10 "png"
      (by decide) (by decide) (by rfl),
   (ext_mime_not_cross_checked (pilFixed 10 10 "PNG")).2 "shot.png" jpegBytes 10 10 "png"
      (by decide) (by decide) (by rfl)⟩

end ImgApi
